import Mathlib

/-!
# puppeteer-load-tester: a shallow embedding of `src/index.js`

The JavaScript program drives one headless browser per simulated user from a
worker thread and aggregates the per-user results on the main thread.

Modelling conventions

* JavaScript strings are lists of characters (`Str`).
* Everything outside `index.js` (the Puppeteer driver, `Math.random`,
  `Date.now`, `path.join`) is a `World`: a family of oracles indexed by the
  number of interactions performed so far.  Because the program is
  deterministic, an oracle indexed by the position in the interaction
  sequence covers every possible behaviour of the environment.
* Every interaction is appended to a `Trace` together with its outcome, so
  statements such as "browser.close is called" are statements about traces.
* An `async` function is a `Run α`: given the trace so far it either
  fulfils with a value or rejects with an error message, and extends the trace.
* JavaScript numbers are kept exact: a draw of `Math.random()` is a fraction
  `num/den` in `[0,1)`, a quotient is an unreduced fraction `Frac`.
  IEEE rounding is not modelled.
* `console.log` / `console.error` output is observational only and is not
  modelled; `fs.writeFileSync` receives the text computed by `csvContent`.
-/

namespace LoadTester

/-! ## Strings and numbers -/

abbrev Str := List Char

/-- The double quote character. -/
def dq : Char := Char.ofNat 34

/-- The line feed character, the separator used by `join("\n")`. -/
def lf : Char := Char.ofNat 10

/-- The comma. -/
def comma : Char := Char.ofNat 44

/-- Template-literal rendering of a non-negative integer. -/
def natStr (n : Nat) : Str := (Nat.repr n).toList

/-- Template-literal rendering of an integer. -/
def intStr : Int → Str
  | Int.ofNat n => natStr n
  | Int.negSucc n => '-' :: natStr (n + 1)

/-- Template-literal rendering of a boolean. -/
def boolStr (b : Bool) : Str := if b then "true".toList else "false".toList

/-- The JavaScript expression `x || ""` for `x` a string or `null`. -/
def orEmpty : Option Str → Str
  | some s => s
  | none => []

/-- The method `String.prototype.includes`. -/
def includes (s pat : Str) : Bool := s.tails.any (fun u => pat.isPrefixOf u)

/-- White space and line terminators removed by `String.prototype.trim`. -/
def isJsSpace (c : Char) : Bool :=
  let n := c.toNat
  n = 9 || n = 10 || n = 11 || n = 12 || n = 13 || n = 32 || n = 160 || n = 5760 ||
  (8192 ≤ n && n ≤ 8202) || n = 8232 || n = 8233 || n = 8239 || n = 8287 ||
  n = 12288 || n = 65279

/-- The method `String.prototype.trim`. -/
def jsTrim (s : Str) : Str :=
  ((s.dropWhile isJsSpace).reverse.dropWhile isJsSpace).reverse

/-- One value returned by `Math.random()`: the fraction `num/den`, in `[0,1)`. -/
structure Draw where
  num : Nat
  den : Nat
  lt : num < den
deriving DecidableEq

/-- The value of `Math.floor(Math.random() * n)` for the draw `r` and a non-negative integer `n`. -/
def floorMul (r : Draw) (n : Nat) : Nat := r.num * n / r.den

/-- An exact JavaScript number `num/den`; `den = 0` stands for the result of a
division by zero (`NaN` or an infinity). -/
structure Frac where
  num : Int
  den : Nat
deriving DecidableEq

/-- The quotient `a / b` of two integers, `b` non-negative. -/
def Frac.div (a : Int) (b : Nat) : Frac := ⟨a, b⟩

/-- The product `x * k` by a non-negative integer. -/
def Frac.mul (x : Frac) (k : Nat) : Frac := ⟨x.num * k, x.den⟩

/-- Two-digit rendering of a number below 100. -/
def pad2 (n : Nat) : Str := if n < 10 then '0' :: natStr n else natStr n

/-- The number of hundredths chosen by `toFixed(2)` for the magnitude `p/q`:
the integer `n` with `n/100` closest to `p/q`, the larger one on a tie. -/
def roundCents (p q : Nat) : Nat := (200 * p + q) / (2 * q)

/-- Rendering of a number of hundredths, as `toFixed(2)` prints it. -/
def renderCents (negative : Bool) (cents : Nat) : Str :=
  (if negative then ['-'] else []) ++ natStr (cents / 100) ++ '.' :: pad2 (cents % 100)

/-- The method `Number.prototype.toFixed(2)`. -/
def toFixed2 (x : Frac) : Str :=
  if x.den = 0 then
    (if x.num = 0 then "NaN".toList
     else if x.num < 0 then "-Infinity".toList else "Infinity".toList)
  else renderCents (decide (x.num < 0)) (roundCents x.num.natAbs x.den)

/-! ## Configuration and the profile catalog (lines 6-59) -/

structure Config where
  url : Str
  concurrentUsers : Nat
  outputDir : Str
  timeout : Nat
  headless : Str
  maxNavigations : Nat
  simulateVPN : Bool
deriving DecidableEq

def CONFIG : Config where
  url := "https://www.example.com/".toList
  concurrentUsers := 10
  outputDir := "./test-results".toList
  timeout := 30000
  headless := "new".toList
  maxNavigations := 3
  simulateVPN := true

structure Viewport where
  width : Nat
  height : Nat
deriving DecidableEq

/-- A decimal literal `mantissa / 10^scale`. -/
structure Decimal where
  mantissa : Int
  scale : Nat
deriving DecidableEq

structure Location where
  latitude : Decimal
  longitude : Decimal
deriving DecidableEq

structure Profile where
  name : Str
  userAgent : Str
  viewport : Viewport
  language : Str
  timezone : Str
  location : Location
deriving DecidableEq

def VPN_PROFILES : List Profile :=
  [ { name := "US - Chrome".toList
      userAgent := "Mozilla/5.0 (Windows NT 10.0; Win64; x64) AppleWebKit/537.36 (KHTML, like Gecko) Chrome/120.0.0.0 Safari/537.36".toList
      viewport := ⟨1920, 1080⟩
      language := "en-US,en;q=0.9".toList
      timezone := "America/New_York".toList
      location := ⟨⟨407128, 4⟩, ⟨-74006, 3⟩⟩ },
    { name := "UK - Firefox".toList
      userAgent := "Mozilla/5.0 (Windows NT 10.0; Win64; x64; rv:121.0) Gecko/20100101 Firefox/121.0".toList
      viewport := ⟨1366, 768⟩
      language := "en-GB,en;q=0.5".toList
      timezone := "Europe/London".toList
      location := ⟨⟨515074, 4⟩, ⟨-1278, 4⟩⟩ },
    { name := "Germany - Safari".toList
      userAgent := "Mozilla/5.0 (Macintosh; Intel Mac OS X 10_15_7) AppleWebKit/605.1.15 (KHTML, like Gecko) Version/17.2 Safari/605.1.15".toList
      viewport := ⟨1440, 900⟩
      language := "de-DE,de;q=0.9,en;q=0.8".toList
      timezone := "Europe/Berlin".toList
      location := ⟨⟨5252, 2⟩, ⟨13405, 3⟩⟩ },
    { name := "Japan - Edge".toList
      userAgent := "Mozilla/5.0 (Windows NT 10.0; Win64; x64) AppleWebKit/537.36 (KHTML, like Gecko) Chrome/120.0.0.0 Safari/537.36 Edg/120.0.0.0".toList
      viewport := ⟨1536, 864⟩
      language := "ja-JP,ja;q=0.9,en;q=0.8".toList
      timezone := "Asia/Tokyo".toList
      location := ⟨⟨356762, 4⟩, ⟨1396503, 4⟩⟩ },
    { name := "Canada - Mobile".toList
      userAgent := "Mozilla/5.0 (iPhone; CPU iPhone OS 17_2 like Mac OS X) AppleWebKit/605.1.15 (KHTML, like Gecko) Version/17.2 Mobile/15E148 Safari/604.1".toList
      viewport := ⟨390, 844⟩
      language := "en-CA,en;q=0.9".toList
      timezone := "America/Toronto".toList
      location := ⟨⟨436532, 4⟩, ⟨-793832, 4⟩⟩ } ]

/-! ## The environment and its trace -/

/-- An element handle returned by `page.$$`. -/
abbrev Handle := Nat

/-- The interactions of `index.js` with its environment, one constructor per
call site where the same driver method is called from several places. -/
inductive Action
  /-- Call `Math.random()` -/
  | random
  /-- Call `Date.now()` -/
  | now
  /-- Timer `delay(r * scale + offset)` -/
  | delay (r : Draw) (scale offset : Nat)
  /-- Call `puppeteer.launch` (line 80) -/
  | launch (headless : Str)
  /-- Call `browser.newPage` (line 85) -/
  | newPage
  /-- Call `page.setUserAgent` (line 92) -/
  | setUserAgent (userAgent : Str)
  /-- Call `page.setViewport` (lines 95, 111) -/
  | setViewport (v : Viewport)
  /-- Call `page.setExtraHTTPHeaders` (line 98) -/
  | setExtraHTTPHeaders (acceptLanguage : Str)
  /-- Call `page.emulateTimezone` (line 103) -/
  | emulateTimezone (timezone : Str)
  /-- Call `context.overridePermissions(url, ["geolocation"])` (line 107) -/
  | overridePermissions (origin : Str)
  /-- Call `page.setGeolocation` (line 108) -/
  | setGeolocation (location : Location)
  /-- Call `page.setCacheEnabled` (line 115) -/
  | setCacheEnabled (enabled : Bool)
  /-- Call `page.goto(url, networkidle2, timeout)` (line 126) -/
  | goto (url : Str) (timeout : Nat)
  /-- Call `page.screenshot` of the initial page (line 133) -/
  | screenshot (path : Str)
  /-- Call `browser.close` (line 142) -/
  | close
  /-- Call `page.evaluate(scrollBy)` in simulateUserBehavior (line 160) -/
  | scroll
  /-- Call `page.$$` for buttons and links (line 168) -/
  | queryButtons
  /-- Call `randomButton.click` (line 172) -/
  | clickButton (h : Handle)
  /-- Call `page.$$(selector)` in the first selector scan (line 210) -/
  | scanNav (selector : Str)
  /-- Call `randomLink.evaluate` reading href and innerText (line 235) -/
  | readLink (h : Handle)
  /-- Call `page.waitForNavigation` (line 248) -/
  | waitForNavigation (timeout : Nat)
  /-- Call `randomLink.click` (line 248) -/
  | clickLink (h : Handle)
  /-- Call `page.screenshot` after a hop (line 252) -/
  | hopScreenshot (path : Str)
  /-- Call `page.evaluate(scrollBy)` after a hop (line 256) -/
  | hopScroll
  /-- Call `page.$$(selector)` in the re-scan after a hop (line 264) -/
  | rescanNav (selector : Str)
deriving DecidableEq

/-- One interaction with its outcome: `err = none` when it succeeded,
`err = some m` when it raised an error with message `m`. -/
structure Event where
  act : Action
  err : Option Str
deriving DecidableEq

abbrev Trace := List Event

/-- What `randomLink.evaluate` reads from an anchor: `el.href` and `el.innerText`. -/
structure RawLink where
  href : Str
  innerText : Str
deriving DecidableEq

deriving instance DecidableEq for Except

/-- Everything outside `index.js`.  The index is the length of the trace at the
moment of the interaction. -/
structure World where
  /-- the value of `Math.random()` -/
  random : Nat → Draw
  /-- the value of `Date.now()` -/
  now : Nat → Int
  /-- outcome of a driver call without result: `none` resolves, `some m` rejects -/
  cmd : Nat → Option Str
  /-- outcome of `page.$$` -/
  query : Nat → Except Str (List Handle)
  /-- outcome of `randomLink.evaluate` -/
  link : Nat → Except Str RawLink
  /-- the function `path.join` -/
  pathJoin : Str → Str → Str

/-- An asynchronous computation: from the trace so far to a fulfilled value or a
rejection message, and the extended trace. -/
def Run (α : Type) : Type := Trace → Except Str α × Trace

/-- Sequencing of awaited computations: a rejection skips the continuation. -/
def Run.bind {α β : Type} (m : Run α) (f : α → Run β) : Run β := fun t =>
  match m t with
  | (Except.ok a, t1) => f a t1
  | (Except.error e, t1) => (Except.error e, t1)

instance : Monad Run where
  pure a := fun t => (Except.ok a, t)
  bind := Run.bind

/-- The statement `try { m } catch (err) { ... }` with the outcome made explicit:
never rejects. -/
def Run.attempt {α : Type} (m : Run α) : Run (Except Str α) := fun t =>
  ((Except.ok (m t).1 : Except Str (Except Str α)), (m t).2)

/-- An awaited driver call without result. -/
def World.call (w : World) (a : Action) : Run Unit := fun t =>
  match w.cmd t.length with
  | none => (Except.ok (), t ++ [⟨a, none⟩])
  | some m => (Except.error m, t ++ [⟨a, some m⟩])

/-- Call `Math.random()`. -/
def World.rand (w : World) : Run Draw := fun t =>
  (Except.ok (w.random t.length), t ++ [⟨Action.random, none⟩])

/-- Call `Date.now()`. -/
def World.dateNow (w : World) : Run Int := fun t =>
  (Except.ok (w.now t.length), t ++ [⟨Action.now, none⟩])

/-- The call `await page.$$(...)`, recorded as the action `a`. -/
def World.select (w : World) (a : Action) : Run (List Handle) := fun t =>
  match w.query t.length with
  | Except.ok hs => (Except.ok hs, t ++ [⟨a, none⟩])
  | Except.error m => (Except.error m, t ++ [⟨a, some m⟩])

/-- The statement `await delay(Math.random() * scale + offset)` (line 67): draws, then waits. -/
def World.delay (w : World) (scale offset : Nat) : Run Unit := fun t =>
  (Except.ok (), t ++ [⟨Action.random, none⟩,
    ⟨Action.delay (w.random t.length) scale offset, none⟩])

/-! ## getRandomVPNProfile (lines 70-75) -/

/-- The function `getRandomVPNProfile`; `none` stands for `null` and for `undefined`. -/
def getRandomVPNProfile (w : World) (cfg : Config) : Run (Option Profile) :=
  if !cfg.simulateVPN then pure none
  else do
    let r ← w.rand
    pure (VPN_PROFILES[floorMul r VPN_PROFILES.length]?)

/-! ## randomNavigation (lines 188-275) -/

/-- The selector list `navSelectors` (lines 190-205). -/
def navSelectors : List Str :=
  [ "nav a[href]".toList,
    ".nav a[href]".toList,
    ".navigation a[href]".toList,
    ".menu a[href]".toList,
    "header a[href]".toList,
    ".header a[href]".toList,
    "footer a[href]".toList,
    ".footer a[href]".toList,
    ".sidebar a[href]".toList,
    ".main-menu a[href]".toList,
    ".elementor-nav-menu a[href]".toList,
    ".menu-item a[href]".toList,
    ".page-item a[href]".toList,
    ".cat-item a[href]".toList ]

/-- The loop `for (const selector of navSelectors)` (lines 209-216 and 263-269):
the first selector with at least one match gives the pool; a rejected query
propagates.  `mk` is the action recorded for one query. -/
def scanSelectors (w : World) (mk : Str → Action) : List Str → Run (List Handle)
  | [] => pure []
  | selector :: rest => do
    let links ← w.select (mk selector)
    if links.length > 0 then pure links else scanSelectors w mk rest

/-- The data built inside `randomLink.evaluate` (lines 235-238). -/
structure LinkData where
  url : Str
  text : Str
deriving DecidableEq

/-- The call `await randomLink.evaluate(el => (url: el.href, text: el.innerText.trim()))`. -/
def World.readLink (w : World) (h : Handle) : Run LinkData := fun t =>
  match w.link t.length with
  | Except.ok raw =>
    (Except.ok ⟨raw.href, jsTrim raw.innerText⟩, t ++ [⟨Action.readLink h, none⟩])
  | Except.error m => (Except.error m, t ++ [⟨Action.readLink h, some m⟩])

/-- The condition of the `if` on line 241. -/
def invalidLink (d : LinkData) : Bool :=
  d.url.isEmpty || includes d.url "javascript:".toList || includes d.url "#".toList ||
  includes d.url "mailto:".toList || includes d.url "tel:".toList || d.text.isEmpty

/-- The statement `await Promise.all([page.waitForNavigation(..), randomLink.click()])`
(line 248): both calls are issued, the whole rejects when one of them does. -/
def World.clickAndWait (w : World) (h : Handle) (timeout : Nat) : Run Unit := fun t =>
  let e1 := w.cmd t.length
  let t1 := t ++ [⟨Action.waitForNavigation timeout, e1⟩]
  let e2 := w.cmd t1.length
  let t2 := t1 ++ [⟨Action.clickLink h, e2⟩]
  match e1, e2 with
  | none, none => (Except.ok (), t2)
  | some m, _ => (Except.error m, t2)
  | none, some m => (Except.error m, t2)

/-- Member `xs[i]` of a JavaScript array; calling a method on `undefined` raises
a TypeError. -/
def member (xs : List Handle) (i : Nat) : Run Handle := fun t =>
  match xs[i]? with
  | some h => (Except.ok h, t)
  | none => (Except.error "TypeError".toList, t)

/-- How one iteration of the hop loop ends. -/
inductive HopEnd
  /-- the `continue` on line 242: the pool is kept -/
  | skipped
  /-- the end of the `try` block: the pool is replaced by the re-scan -/
  | visited (navLinks : List Handle)
deriving DecidableEq

/-- The `try` block of one iteration (lines 234-269), for the link `randomLink`
picked on line 231 and the loop counter `i`. -/
def hopTry (w : World) (cfg : Config) (userId i : Nat) (navLinks : List Handle)
    (pick : Nat) : Run HopEnd := do
  let randomLink ← member navLinks pick
  let linkData ← w.readLink randomLink
  if invalidLink linkData then pure HopEnd.skipped
  else do
    w.clickAndWait randomLink cfg.timeout
    let newScreenshotPath := w.pathJoin cfg.outputDir
      ("user_".toList ++ natStr userId ++ "_page".toList ++ natStr (i + 1) ++ ".png".toList)
    w.call (Action.hopScreenshot newScreenshotPath)
    w.delay 2000 1000
    w.call Action.hopScroll
    w.delay 2000 500
    let links ← scanSelectors w Action.rescanNav navSelectors
    pure (HopEnd.visited links)

/-- The loop `for (let i = 0; i < numNavigations; i++)` (lines 227-274), with
`remaining = numNavigations - i` iterations left.  The `catch` block breaks
out of the loop, so the loop itself never rejects. -/
def hopLoop (w : World) (cfg : Config) (userId : Nat) :
    Nat → Nat → List Handle → Run Unit
  | 0, _, _ => pure ()
  | remaining + 1, i, navLinks =>
    if navLinks.length = 0 then pure ()
    else do
      let r ← w.rand
      let outcome ← (hopTry w cfg userId i navLinks (floorMul r navLinks.length)).attempt
      match outcome with
      | Except.error _ => pure ()
      | Except.ok HopEnd.skipped => hopLoop w cfg userId remaining (i + 1) navLinks
      | Except.ok (HopEnd.visited links) => hopLoop w cfg userId remaining (i + 1) links

/-- The function `randomNavigation` (lines 188-275). -/
def randomNavigation (w : World) (cfg : Config) (userId : Nat) : Run Unit := do
  let navLinks ← scanSelectors w Action.scanNav navSelectors
  if navLinks.length = 0 then pure ()
  else do
    let r ← w.rand
    let numNavigations := floorMul r cfg.maxNavigations + 1
    hopLoop w cfg userId numNavigations 0 navLinks

/-! ## simulateUserBehavior (lines 155-185) -/

/-- The function `simulateUserBehavior`. -/
def simulateUserBehavior (w : World) (cfg : Config) (userId : Nat) : Run Unit := do
  w.delay 4000 1000
  w.call Action.scroll
  w.delay 2000 500
  let buttons ← w.select Action.queryButtons
  let _ ← (if buttons.length > 0 then (do
      let r ← w.rand
      -- try { click; delay } catch (e) { }
      (do
        let randomButton ← member buttons (floorMul r buttons.length)
        w.call (Action.clickButton randomButton)
        w.delay 3000 1000).attempt)
    else pure (Except.ok ()))
  randomNavigation w cfg userId
  w.delay 2000 500

/-! ## simulateUser (lines 78-152) -/

/-- The record returned by `simulateUser` and posted to the main thread. -/
structure Result where
  userId : Nat
  success : Bool
  loadTime : Int
  error : Option Str
  screenshot : Option Str
  profile : Str
deriving DecidableEq

/-- The values of the variables `loadTime`, `success` and `error` when the
`finally` block is entered. -/
structure Locals where
  loadTime : Int
  success : Bool
  error : Option Str
deriving DecidableEq

/-- The block applying the profile (lines 88-112). -/
def applyProfile (w : World) (cfg : Config) : Option Profile → Run Unit
  | some vpnProfile => do
    w.call (Action.setUserAgent vpnProfile.userAgent)
    w.call (Action.setViewport vpnProfile.viewport)
    w.call (Action.setExtraHTTPHeaders vpnProfile.language)
    w.call (Action.emulateTimezone vpnProfile.timezone)
    w.call (Action.overridePermissions cfg.url)
    w.call (Action.setGeolocation vpnProfile.location)
  | none => w.call (Action.setViewport ⟨1920, 1080⟩)

/-- The rest of the `try` block once the load time is known (lines 132-138): the
initial snapshot, then the behaviour phase; `success = true` follows. -/
def afterLoad (w : World) (cfg : Config) (userId : Nat) (screenshotPath : Str) : Run Unit := do
  w.call (Action.screenshot screenshotPath)
  simulateUserBehavior w cfg userId

/-- The `try { .. } catch (err) { error = err.message }` statement (lines 123-140):
it never rejects and leaves the three variables behind. -/
def tryLoad (w : World) (cfg : Config) (userId : Nat) (screenshotPath : Str) :
    Run Locals := do
  let startTime ← w.dateNow
  match ← (w.call (Action.goto cfg.url cfg.timeout)).attempt with
  | Except.error m => pure ⟨0, false, some m⟩
  | Except.ok _ =>
    let endTime ← w.dateNow
    let loadTime := endTime - startTime
    let rest ← (afterLoad w cfg userId screenshotPath).attempt
    match rest with
    | Except.error m => pure ⟨loadTime, false, some m⟩
    | Except.ok _ => pure ⟨loadTime, true, none⟩

/-- The first part of `simulateUser` (lines 79-115), all of it outside the `try`
statement: the profile is chosen, the browser launched and the page prepared. -/
def openSession (w : World) (cfg : Config) : Run (Option Profile) := do
  let vpnProfile ← getRandomVPNProfile w cfg
  w.call (Action.launch cfg.headless)
  w.call Action.newPage
  applyProfile w cfg vpnProfile
  w.call (Action.setCacheEnabled false)
  pure vpnProfile

/-- The second part of `simulateUser` (lines 117-151): the `try` / `catch`
statement, then the `finally` block, which closes the browser and returns the
Result. -/
def runSession (w : World) (cfg : Config) (userId : Nat) (vpnProfile : Option Profile) :
    Run Result := do
  let screenshotPath := w.pathJoin cfg.outputDir
    ("user_".toList ++ natStr userId ++ ".png".toList)
  let v ← tryLoad w cfg userId screenshotPath
  -- finally
  w.call Action.close
  pure { userId := userId
         success := v.success
         loadTime := v.loadTime
         error := v.error
         screenshot := if v.success then some screenshotPath else none
         profile := match vpnProfile with
           | some p => p.name
           | none => "Default".toList }

/-- The function `simulateUser` (lines 78-152). -/
def simulateUser (w : World) (cfg : Config) (userId : Nat) : Run Result := do
  let vpnProfile ← openSession w cfg
  runSession w cfg userId vpnProfile

/-! ## Worker and main thread (lines 277-329) -/

/-- The worker branch (lines 317-328): the message posted to the main thread. -/
def workerMain (w : World) (cfg : Config) (userId : Nat) (t : Trace) : Result × Trace :=
  match simulateUser w cfg userId t with
  | (Except.ok result, t1) => (result, t1)
  | (Except.error m, t1) =>
    ({ userId := userId, success := false, error := some m, loadTime := 0,
       screenshot := none, profile := "Unknown".toList }, t1)

/-- An event delivered to the main thread by one worker. -/
inductive WorkerEvent
  /-- the worker posted a Result -/
  | message (result : Result)
  /-- the worker terminated with an uncaught error -/
  | error (msg : Str)
deriving DecidableEq

/-- The variables of the main thread, and the arguments of the calls of
`printSummary` made so far. -/
structure MainState where
  results : List Result
  completedUsers : Nat
  summaries : List (List Result)
deriving DecidableEq

/-- The handler `worker.on("message", ..)` (lines 294-305). -/
def onMessage (cfg : Config) (s : MainState) (result : Result) : MainState :=
  let results := s.results ++ [result]
  let completedUsers := s.completedUsers + 1
  { results := results
    completedUsers := completedUsers
    summaries := if completedUsers = cfg.concurrentUsers then s.summaries ++ [results]
                 else s.summaries }

/-- The handler `worker.on("error", ..)` (lines 307-313). -/
def onError (cfg : Config) (s : MainState) : MainState :=
  let completedUsers := s.completedUsers + 1
  { results := s.results
    completedUsers := completedUsers
    summaries := if completedUsers = cfg.concurrentUsers then s.summaries ++ [s.results]
                 else s.summaries }

/-- Delivery of one worker event. -/
def deliver (cfg : Config) (s : MainState) : WorkerEvent → MainState
  | WorkerEvent.message result => onMessage cfg s result
  | WorkerEvent.error _ => onError cfg s

/-- The main thread (lines 287-314) after the given worker events, in order of
arrival. -/
def mainThread (cfg : Config) (events : List WorkerEvent) : MainState :=
  events.foldl (deliver cfg) ⟨[], 0, []⟩

/-! ## printSummary (lines 332-368) -/

/-- The header line of the CSV file. -/
def csvHeader : Str := "User ID,Success,Load Time (ms),Error,Profile,Screenshot".toList

/-- The template literal of line 363: one row of the CSV file. -/
def csvRow (r : Result) : Str :=
  natStr r.userId ++ [comma] ++ boolStr r.success ++ [comma] ++ intStr r.loadTime ++
  [comma, dq] ++ orEmpty r.error ++ [dq, comma, dq] ++ r.profile ++ [dq, comma] ++
  orEmpty r.screenshot

/-- The expression `[header, ...results.map(row)].join("\n")` (line 363). -/
def csvContent (results : List Result) : Str :=
  [lf].intercalate (csvHeader :: results.map csvRow)

/-- What `printSummary` computes. -/
structure Summary where
  successful : List Result
  failed : List Result
  successRate : Str
  avgLoadTime : Str
  csvContent : Str
deriving DecidableEq

/-- The function `printSummary`; `avgLoadTime` is the text printed by the template
literal on line 349. -/
def printSummary (results : List Result) : Summary :=
  let successful := results.filter (fun r => r.success)
  let failed := results.filter (fun r => !r.success)
  let successRate := toFixed2 ((Frac.div successful.length results.length).mul 100)
  let avgLoadTime :=
    if successful.length > 0 then
      toFixed2 (Frac.div (successful.foldl (fun sum r => sum + r.loadTime) 0) successful.length)
    else "0".toList
  { successful := successful
    failed := failed
    successRate := successRate
    avgLoadTime := avgLoadTime
    csvContent := csvContent results }

/-! ## A reader for the CSV file -/

/-- The states of the CSV reader. -/
inductive CsvState
  /-- at the first character of a field -/
  | fieldStart
  /-- inside a field that did not start with a quote -/
  | unquoted
  /-- inside a quoted field -/
  | quoted
  /-- inside a quoted field, right after a quote -/
  | quoteSeen
deriving DecidableEq

/-- Modelled from the spec: the standard CSV parser of the round-trip property
(RFC 4180: fields separated by commas, records by line feeds, a field may be
enclosed in double quotes, inside which a doubled quote stands for one quote
and commas and line feeds are data).  `field`, `row` and `rows` are the field,
the record and the records read so far. -/
def parseCsvFrom : CsvState → Str → List Str → List (List Str) → Str → List (List Str)
  | _, field, row, rows, [] => rows ++ [row ++ [field]]
  | CsvState.fieldStart, _, row, rows, c :: cs =>
    if c = dq then parseCsvFrom CsvState.quoted [] row rows cs
    else if c = comma then parseCsvFrom CsvState.fieldStart [] (row ++ [[]]) rows cs
    else if c = lf then parseCsvFrom CsvState.fieldStart [] [] (rows ++ [row ++ [[]]]) cs
    else parseCsvFrom CsvState.unquoted [c] row rows cs
  | CsvState.unquoted, field, row, rows, c :: cs =>
    if c = comma then parseCsvFrom CsvState.fieldStart [] (row ++ [field]) rows cs
    else if c = lf then parseCsvFrom CsvState.fieldStart [] [] (rows ++ [row ++ [field]]) cs
    else parseCsvFrom CsvState.unquoted (field ++ [c]) row rows cs
  | CsvState.quoted, field, row, rows, c :: cs =>
    if c = dq then parseCsvFrom CsvState.quoteSeen field row rows cs
    else parseCsvFrom CsvState.quoted (field ++ [c]) row rows cs
  | CsvState.quoteSeen, field, row, rows, c :: cs =>
    if c = dq then parseCsvFrom CsvState.quoted (field ++ [dq]) row rows cs
    else if c = comma then parseCsvFrom CsvState.fieldStart [] (row ++ [field]) rows cs
    else if c = lf then parseCsvFrom CsvState.fieldStart [] [] (rows ++ [row ++ [field]]) cs
    else parseCsvFrom CsvState.unquoted (field ++ [c]) row rows cs

/-- Modelled from the spec: the records a standard CSV parser reads from a text. -/
def parseCsv (text : Str) : List (List Str) :=
  parseCsvFrom CsvState.fieldStart [] [] [] text

/-- The six column titles of the header line. -/
def headerValues : List Str :=
  [ "User ID".toList, "Success".toList, "Load Time (ms)".toList, "Error".toList,
    "Profile".toList, "Screenshot".toList ]

/-- The six values a row is written from (line 363), before any quoting. -/
def rowValues (r : Result) : List Str :=
  [ natStr r.userId, boolStr r.success, intStr r.loadTime, orEmpty r.error, r.profile,
    orEmpty r.screenshot ]

/-! ## Properties of traces -/

/-- The clicks on navigation links (line 248). -/
def Action.isLinkClick : Action → Bool
  | Action.clickLink _ => true
  | _ => false

/-- The number of real navigations recorded in a trace: the clicks on
navigation links, each issued together with `waitForNavigation`. -/
def navigations (t : Trace) : Nat := t.countP (fun e => e.act.isLinkClick)

/-- The computation `m` only appends events satisfying `P` to the trace. -/
def Run.Emits {α : Type} (m : Run α) (P : Event → Prop) : Prop :=
  ∀ t, ∃ ext, (m t).2 = t ++ ext ∧ ∀ e ∈ ext, P e

/-- The computation `m` never rejects. -/
def Run.Total {α : Type} (m : Run α) : Prop :=
  ∀ t, ∃ a, (m t).1 = Except.ok a

/-- When the computation `m` fulfils, every event it appended succeeded. -/
def Run.Clean {α : Type} (m : Run α) : Prop :=
  ∀ t a, (m t).1 = Except.ok a → ∃ ext, (m t).2 = t ++ ext ∧ ∀ e ∈ ext, e.err = none

/-- The computation `m` performs at most `k` real navigations. -/
def Run.Navigates {α : Type} (m : Run α) (k : Nat) : Prop :=
  ∀ t, navigations (m t).2 ≤ navigations t + k

/-- The configuration of the source with a single user. -/
def oneUser : Config := { CONFIG with concurrentUsers := 1 }

/-- The function `path.join` of the concrete worlds: concatenation with a slash. -/
def joinPath (dir file : Str) : Str := dir ++ '/' :: file

/-- The draw 1/2. -/
def half : Draw := ⟨1, 2, by decide⟩

/-- A world in which every driver call succeeds, every query matches the two
handles 10 and 20, and every anchor is a `mailto:` link. -/
def mailWorld : World where
  random := fun _ => half
  now := fun k => k
  cmd := fun _ => none
  query := fun _ => Except.ok [10, 20]
  link := fun _ => Except.ok ⟨"mailto:a@b.com".toList, "Mail us".toList⟩
  pathJoin := joinPath

/-- A world in which every driver call succeeds, every query matches the two
handles 10 and 20 and every anchor is an ordinary link. -/
def linkWorld : World where
  random := fun _ => half
  now := fun i => i
  cmd := fun _ => none
  query := fun _ => Except.ok [10, 20]
  link := fun _ => Except.ok ⟨"https://www.example.com/about".toList, "About".toList⟩
  pathJoin := joinPath

/-- The world `linkWorld`, except that the driver call at position `k` of the
trace rejects with `msg`. -/
def failAt (k : Nat) (msg : Str) : World :=
  { linkWorld with cmd := fun i => if i = k then some msg else none }

/-- The message of a closed target. -/
def closedMsg : Str := "Target closed".toList

/-- The configuration of the source with `maxNavigations` set to 0. -/
def zeroHops : Config := { CONFIG with maxNavigations := 0 }

/-- A failed session whose error message ends with an empty quoted string. -/
def quotedFailure : Result where
  userId := 1
  success := false
  loadTime := 0
  error := some ("bad selector ".toList ++ [dq, dq])
  screenshot := none
  profile := "Default".toList

/-- A failed session whose error message has two lines, as the message of a
failed `puppeteer.launch` does. -/
def twoLineFailure : Result where
  userId := 1
  success := false
  loadTime := 0
  error := some ("Failed to launch the browser process!".toList ++ [lf] ++
    "spawn chrome ENOENT".toList)
  screenshot := none
  profile := "Unknown".toList

/-- A successful session with the given load time. -/
def okResult (userId : Nat) (loadTime : Int) : Result where
  userId := userId
  success := true
  loadTime := loadTime
  error := none
  screenshot := some ("test-results/user_".toList ++ natStr userId ++ ".png".toList)
  profile := "Default".toList

theorem Run.bind_apply {α β : Type} (m : Run α) (f : α → Run β) (t : Trace) :
    (m >>= f) t = match m t with
      | (Except.ok a, t1) => f a t1
      | (Except.error e, t1) => (Except.error e, t1) := rfl

theorem Run.pure_apply {α : Type} (a : α) (t : Trace) :
    (pure a : Run α) t = (Except.ok a, t) := rfl

/-- The index computed by `Math.floor(Math.random() * n)` is a valid index. -/
theorem floorMul_lt (r : Draw) {n : Nat} (hn : 0 < n) : floorMul r n < n := by
  unfold floorMul
  have hden : 0 < r.den := Nat.lt_of_le_of_lt (Nat.zero_le _) r.lt
  rw [Nat.div_lt_iff_lt_mul hden]
  calc r.num * n < r.den * n := Nat.mul_lt_mul_of_pos_right r.lt hn
    _ = n * r.den := Nat.mul_comm _ _

/-- The draw is a number of the interval `[0,1)`. -/
theorem Draw.unit_interval (r : Draw) :
    (0 : ℚ) ≤ (r.num : ℚ) / (r.den : ℚ) ∧ (r.num : ℚ) / (r.den : ℚ) < 1 := by
  have hden : (0 : ℚ) < (r.den : ℚ) := by
    exact_mod_cast Nat.lt_of_le_of_lt (Nat.zero_le _) r.lt
  refine ⟨by positivity, ?_⟩
  rw [div_lt_one hden]
  exact_mod_cast r.lt

theorem digitChar_ne_lf : ∀ d, d < 10 → Nat.digitChar d ≠ lf := by
  decide

theorem toDigitsCore_ne_lf (fuel : Nat) : ∀ (n : Nat) (acc : List Char),
    (∀ c ∈ acc, c ≠ lf) → ∀ c ∈ Nat.toDigitsCore 10 fuel n acc, c ≠ lf := by
  induction fuel with
  | zero =>
    intro n acc h
    simpa [Nat.toDigitsCore] using h
  | succ f ih =>
    intro n acc h
    simp only [Nat.toDigitsCore]
    have hacc : ∀ c ∈ Nat.digitChar (n % 10) :: acc, c ≠ lf := by
      intro c hc
      rcases List.mem_cons.mp hc with rfl | hc
      · exact digitChar_ne_lf _ (Nat.mod_lt _ (by decide))
      · exact h c hc
    split_ifs
    · exact hacc
    · exact ih _ _ hacc

theorem lf_not_mem_natStr (n : Nat) : lf ∉ natStr n := by
  intro h
  have := toDigitsCore_ne_lf (n + 1) n [] (by simp) lf
    (by simpa [natStr, Nat.repr, Nat.toDigits, List.asString] using h)
  exact this rfl

theorem lf_not_mem_intStr (z : Int) : lf ∉ intStr z := by
  cases z with
  | ofNat n => exact lf_not_mem_natStr n
  | negSucc n =>
    intro h
    rcases List.mem_cons.mp h with h | h
    · exact absurd h (by decide)
    · exact lf_not_mem_natStr _ h

theorem lf_not_mem_boolStr (b : Bool) : lf ∉ boolStr b := by
  cases b <;> decide

theorem lf_not_mem_csvRow (r : Result) (he : lf ∉ orEmpty r.error) (hp : lf ∉ r.profile)
    (hs : lf ∉ orEmpty r.screenshot) : lf ∉ csvRow r := by
  have h1 := lf_not_mem_natStr r.userId
  have h2 := lf_not_mem_boolStr r.success
  have h3 := lf_not_mem_intStr r.loadTime
  have hc : lf ≠ comma := by decide
  have hd : lf ≠ dq := by decide
  simp [csvRow, h1, h2, h3, he, hp, hs, hc, hd]

/-! ## The aggregate statistics -/

/-- The worker never posts a failed Result that carries a screenshot path. -/
theorem workerMain_failed_screenshot (w : World) (cfg : Config) (userId : Nat) (t : Trace) :
    (workerMain w cfg userId t).1.success = false →
      (workerMain w cfg userId t).1.screenshot = none := by
  unfold workerMain
  rcases h : simulateUser w cfg userId t with ⟨out, t1⟩
  cases out with
  | error m => simp
  | ok r =>
    simp only
    unfold simulateUser runSession at h
    simp only [Run.bind_apply, Run.pure_apply, bind_pure_comp] at h
    intro hs
    revert h
    repeat' split
    all_goals (intro h; try simp at h)
    all_goals (try (obtain ⟨rfl, -⟩ := h; simp_all))

/-! ## Profile selection -/

/-- The list `results` only grows on message events. -/
theorem mainThread_results_length (cfg : Config) (events : List WorkerEvent) :
    (mainThread cfg events).results.length =
      events.countP (fun e => match e with
        | WorkerEvent.message _ => true
        | WorkerEvent.error _ => false) := by
  unfold mainThread
  suffices h : ∀ (s : MainState), (events.foldl (deliver cfg) s).results.length =
      s.results.length + events.countP (fun e => match e with
        | WorkerEvent.message _ => true
        | WorkerEvent.error _ => false) by
    simpa using h ⟨[], 0, []⟩
  induction events with
  | nil => intro s; simp
  | cons e es ih =>
    intro s
    cases e with
    | message r => simp [ih, deliver, onMessage, List.countP_cons, Nat.add_assoc, Nat.add_comm]
    | error m => simp [ih, deliver, onError, List.countP_cons]

/-- C1 (the code departs from the claim): with one configured user whose worker
ends with an error event, the main thread calls `printSummary` once, with an
empty list; the list has 0 entries instead of 1 and the successful and failed
counts sum to 0 instead of 1. -/
theorem mainThread_error_event_drops_result :
    (mainThread oneUser [WorkerEvent.error "boom".toList]).summaries = [[]] ∧
    ([] : List Result).length ≠ oneUser.concurrentUsers ∧
    (printSummary []).successful.length + (printSummary []).failed.length ≠
      oneUser.concurrentUsers := by
  decide

/-! ## The CSV export -/

/-- C4 (the code departs from the claim): for a failed session whose error
message is `bad selector ""`, the CSV text is well formed, but a standard CSV
parser reads the error field back as `bad selector "` (the two quotes of the
message were written undoubled), so the parse does not recover the original
values. -/
theorem csv_roundtrip_fails_on_quote :
    parseCsv (csvContent [quotedFailure]) =
      [headerValues, ["1".toList, "false".toList, "0".toList,
        "bad selector ".toList ++ [dq], "Default".toList, []]] ∧
    parseCsv (csvContent [quotedFailure]) ≠ headerValues :: [quotedFailure].map rowValues := by
  decide

/-- C5, as stated, fails: one failed session whose error message has two lines
gives a CSV text that splits into 3 lines, not 2. -/
theorem csv_lines_counterexample :
    ¬ ((csvContent [twoLineFailure]).splitOn lf).length = [twoLineFailure].length + 1 := by
  decide

/-- C5 (amended): when no error message, profile name or screenshot path
contains a line feed, the CSV text split on the line feed is exactly the header
followed by the rows of the Results in order, N+1 lines; a row whose Result has
no screenshot ends with the comma closing the profile field (its last field is
empty), and a failed Result posted by a worker never has a screenshot. -/
theorem csv_lines (results : List Result)
    (h : ∀ r ∈ results,
      lf ∉ orEmpty r.error ∧ lf ∉ r.profile ∧ lf ∉ orEmpty r.screenshot) :
    (csvContent results).splitOn lf = csvHeader :: results.map csvRow ∧
    ((csvContent results).splitOn lf).length = results.length + 1 ∧
    (∀ r ∈ results, r.screenshot = none →
      csvRow r = natStr r.userId ++ [comma] ++ boolStr r.success ++ [comma] ++
        intStr r.loadTime ++ [comma, dq] ++ orEmpty r.error ++ [dq, comma, dq] ++
        r.profile ++ [dq, comma]) ∧
    (∀ (w : World) (cfg : Config) (userId : Nat) (t : Trace),
      (workerMain w cfg userId t).1.success = false →
        orEmpty (workerMain w cfg userId t).1.screenshot = []) := by
  have hsplit : (csvContent results).splitOn lf = csvHeader :: results.map csvRow := by
    unfold csvContent
    apply List.splitOn_intercalate
    · intro l hl
      rcases List.mem_cons.mp hl with rfl | hl
      · decide
      · obtain ⟨r, hr, rfl⟩ := List.mem_map.mp hl
        obtain ⟨he, hp, hs⟩ := h r hr
        exact lf_not_mem_csvRow r he hp hs
    · simp
  refine ⟨hsplit, ?_, ?_, ?_⟩
  · rw [hsplit]
    simp
  · intro r _ hs
    simp [csvRow, hs, orEmpty]
  · intro w cfg userId t hf
    rw [workerMain_failed_screenshot w cfg userId t hf]
    rfl

/-- Witness of C5 (amended): a successful and a failed session without line feeds. -/
theorem csv_lines_witness :
    (∀ r ∈ [okResult 1 500, quotedFailure],
      lf ∉ orEmpty r.error ∧ lf ∉ r.profile ∧ lf ∉ orEmpty r.screenshot) ∧
    (csvContent [okResult 1 500, quotedFailure]).splitOn lf =
      csvHeader :: [okResult 1 500, quotedFailure].map csvRow ∧
    ((csvContent [okResult 1 500, quotedFailure]).splitOn lf).length = 3 :=
  ⟨by decide, (csv_lines [okResult 1 500, quotedFailure] (by decide)).1,
    (csv_lines [okResult 1 500, quotedFailure] (by decide)).2.1⟩

/-! ## The summary statistics -/

section Emits

variable {P : Event → Prop}

theorem Run.emits_pure {α : Type} (a : α) : (pure a : Run α).Emits P := by
  intro t
  exact ⟨[], by simp [Run.pure_apply], by simp⟩

theorem Run.emits_bind {α β : Type} {m : Run α} {f : α → Run β}
    (hm : m.Emits P) (hf : ∀ a, (f a).Emits P) : (m >>= f).Emits P := by
  intro t
  obtain ⟨e1, h1, p1⟩ := hm t
  rw [Run.bind_apply]
  rcases hmt : m t with ⟨out, t1⟩
  rw [hmt] at h1
  simp only at h1
  subst h1
  cases out with
  | error m => exact ⟨e1, rfl, p1⟩
  | ok a =>
    obtain ⟨e2, h2, p2⟩ := hf a (t ++ e1)
    refine ⟨e1 ++ e2, ?_, ?_⟩
    · simp only [h2, List.append_assoc]
    · intro e he
      rcases List.mem_append.mp he with he | he
      · exact p1 e he
      · exact p2 e he

theorem emits_call (w : World) (a : Action) (h : ∀ err, P ⟨a, err⟩) : (w.call a).Emits P := by
  intro t
  unfold World.call
  split
  · exact ⟨_, rfl, by simpa using h none⟩
  · exact ⟨_, rfl, by simpa using h _⟩

theorem emits_rand (w : World) (h : P ⟨Action.random, none⟩) : w.rand.Emits P := by
  intro t
  exact ⟨_, rfl, by simpa using h⟩

theorem emits_dateNow (w : World) (h : P ⟨Action.now, none⟩) : w.dateNow.Emits P := by
  intro t
  exact ⟨_, rfl, by simpa using h⟩

theorem emits_select (w : World) (a : Action) (h : ∀ err, P ⟨a, err⟩) :
    (w.select a).Emits P := by
  intro t
  unfold World.select
  split
  · exact ⟨_, rfl, by simpa using h none⟩
  · exact ⟨_, rfl, by simpa using h _⟩

theorem emits_delay (w : World) (scale offset : Nat) (h1 : P ⟨Action.random, none⟩)
    (h2 : ∀ r, P ⟨Action.delay r scale offset, none⟩) : (w.delay scale offset).Emits P := by
  intro t
  refine ⟨_, rfl, ?_⟩
  intro e he
  simp only [List.mem_cons, List.mem_singleton, List.not_mem_nil, or_false] at he
  rcases he with rfl | rfl
  · exact h1
  · exact h2 _

theorem emits_readLink (w : World) (h : Handle) (hP : ∀ err, P ⟨Action.readLink h, err⟩) :
    (w.readLink h).Emits P := by
  intro t
  unfold World.readLink
  split
  · exact ⟨_, rfl, by simpa using hP none⟩
  · exact ⟨_, rfl, by simpa using hP _⟩

theorem emits_member (xs : List Handle) (i : Nat) : (member xs i).Emits P := by
  intro t
  unfold member
  split <;> exact ⟨[], by simp, by simp⟩

end Emits

/-! ## Which computations reject, and why -/

section Blames

variable {Q : Action → Prop}

theorem total_dateNow (w : World) : w.dateNow.Total :=
  fun _ => ⟨_, rfl⟩

end Blames

/-! ## The events of the behaviour phase -/

theorem emits_scanSelectors {P : Event → Prop} (w : World) (mk : Str → Action)
    (h : ∀ s err, P ⟨mk s, err⟩) (sels : List Str) : (scanSelectors w mk sels).Emits P := by
  induction sels with
  | nil => exact Run.emits_pure _
  | cons sel rest ih =>
    unfold scanSelectors
    refine Run.emits_bind (emits_select w _ (h sel)) ?_
    intro links
    split
    · exact Run.emits_pure _
    · exact ih

theorem includes_iff (s pat : Str) : includes s pat = true ↔ pat <:+: s := by
  unfold includes
  rw [List.any_eq_true, List.infix_iff_prefix_suffix]
  constructor
  · rintro ⟨u, hu, hp⟩
    exact ⟨u, List.isPrefixOf_iff_prefix.mp hp, (List.mem_tails _ _).mp hu⟩
  · rintro ⟨u, hp, hu⟩
    exact ⟨u, (List.mem_tails _ _).mpr hu, List.isPrefixOf_iff_prefix.mpr hp⟩

theorem invalidLink_iff (d : LinkData) :
    invalidLink d = true ↔
      (d.url = [] ∨ "javascript:".toList <:+: d.url ∨ "#".toList <:+: d.url ∨
        "mailto:".toList <:+: d.url ∨ "tel:".toList <:+: d.url ∨ d.text = []) := by
  simp only [invalidLink, Bool.or_eq_true, includes_iff, List.isEmpty_iff, or_assoc]

/-- C8: in an iteration of the hop loop whose picked link has an empty resolved
URL, or a URL containing `javascript:`, `#`, `mailto:` or `tel:` (so in
particular `javascript:void(0)`, `#` and `mailto:a@b.com`), or an empty trimmed
text, the iteration consists of the draw and of reading the link only: no
click, no navigation wait and no snapshot is issued, and the loop goes on with
the same pool for the remaining iterations. -/
theorem hopLoop_skips_invalid_link (w : World) (cfg : Config) (userId remaining i : Nat)
    (navLinks : List Handle) (t : Trace) (raw : RawLink)
    (hne : navLinks ≠ [])
    (hread : w.link (t.length + 1) = Except.ok raw)
    (hinv : raw.href = [] ∨ "javascript:".toList <:+: raw.href ∨ "#".toList <:+: raw.href ∨
      "mailto:".toList <:+: raw.href ∨ "tel:".toList <:+: raw.href ∨
      jsTrim raw.innerText = []) :
    (∀ text, invalidLink ⟨[], text⟩ = true ∧
      invalidLink ⟨"javascript:void(0)".toList, text⟩ = true ∧
      invalidLink ⟨"#".toList, text⟩ = true ∧
      invalidLink ⟨"mailto:a@b.com".toList, text⟩ = true) ∧
    (∀ url, invalidLink ⟨url, []⟩ = true) ∧
    ∃ randomLink, navLinks[floorMul (w.random t.length) navLinks.length]? = some randomLink ∧
      hopTry w cfg userId i navLinks (floorMul (w.random t.length) navLinks.length)
          (t ++ [⟨Action.random, none⟩]) =
        (Except.ok HopEnd.skipped,
          t ++ [⟨Action.random, none⟩, ⟨Action.readLink randomLink, none⟩]) ∧
      hopLoop w cfg userId (remaining + 1) i navLinks t =
        hopLoop w cfg userId remaining (i + 1) navLinks
          (t ++ [⟨Action.random, none⟩, ⟨Action.readLink randomLink, none⟩]) := by
  refine ⟨?_, ?_, ?_⟩
  · intro text
    refine ⟨?_, ?_, ?_, ?_⟩ <;> rw [invalidLink_iff]
    · exact Or.inl rfl
    · exact Or.inr (Or.inl
        (show "javascript:".toList <:+: "javascript:void(0)".toList by decide))
    · exact Or.inr (Or.inr (Or.inl (show "#".toList <:+: "#".toList by decide)))
    · exact Or.inr (Or.inr (Or.inr (Or.inl
        (show "mailto:".toList <:+: "mailto:a@b.com".toList by decide))))
  · intro url
    simp [invalidLink]
  · have hlen : 0 < navLinks.length := List.length_pos.mpr hne
    have hpick : floorMul (w.random t.length) navLinks.length < navLinks.length :=
      floorMul_lt _ hlen
    have hinv2 : invalidLink ⟨raw.href, jsTrim raw.innerText⟩ = true :=
      (invalidLink_iff _).mpr hinv
    have htry : hopTry w cfg userId i navLinks (floorMul (w.random t.length) navLinks.length)
          (t ++ [⟨Action.random, none⟩]) =
        (Except.ok HopEnd.skipped,
          t ++ [⟨Action.random, none⟩,
            ⟨Action.readLink navLinks[floorMul (w.random t.length) navLinks.length], none⟩]) := by
      simp [hopTry, Run.bind_apply, Run.pure_apply, member, World.readLink,
        List.getElem?_eq_getElem hpick, hread, hinv2]
    refine ⟨navLinks[floorMul (w.random t.length) navLinks.length],
      List.getElem?_eq_getElem hpick, htry, ?_⟩
    rw [hopLoop]
    simp only [Nat.pos_iff_ne_zero.mp hlen, if_false, Run.bind_apply, World.rand, Run.attempt,
      htry]

/-! ## The two parts of simulateUser -/

theorem clean_rand (w : World) : w.rand.Clean :=
  fun _ _ _ => ⟨_, rfl, by simp⟩

theorem Run.navigates_of_emits {α : Type} {m : Run α}
    (h : m.Emits (fun e => e.act.isLinkClick = false)) : m.Navigates 0 := by
  intro t
  obtain ⟨ext, h1, h2⟩ := h t
  rw [h1]
  unfold navigations
  rw [List.countP_append]
  have : List.countP (fun e => e.act.isLinkClick) ext = 0 := by
    rw [List.countP_eq_zero]
    intro e he
    simp [h2 e he]
  omega

theorem Run.navigates_bind {α β : Type} {m : Run α} {f : α → Run β} {a b : Nat}
    (hm : m.Navigates a) (hf : ∀ x, (f x).Navigates b) : (m >>= f).Navigates (a + b) := by
  intro t
  have h1 := hm t
  rw [Run.bind_apply]
  rcases hmt : m t with ⟨out, t1⟩
  rw [hmt] at h1
  simp only at h1
  cases out with
  | error e =>
    simp only
    omega
  | ok x =>
    simp only
    have h2 := hf x t1
    omega

theorem Run.navigates_mono {α : Type} {m : Run α} {a b : Nat} (h : m.Navigates a)
    (hab : a ≤ b) : m.Navigates b := by
  intro t
  have := h t
  omega

theorem navigates_clickAndWait (w : World) (h : Handle) (timeout : Nat) :
    (w.clickAndWait h timeout).Navigates 1 := by
  intro t
  unfold World.clickAndWait
  simp only
  split <;> simp [navigations, List.countP_append, List.countP_cons, Action.isLinkClick]

theorem navigates_scanSelectors (w : World) (mk : Str → Action)
    (h : ∀ s, (mk s).isLinkClick = false) (sels : List Str) :
    (scanSelectors w mk sels).Navigates 0 :=
  Run.navigates_of_emits (emits_scanSelectors w mk (fun s _ => h s) sels)

theorem navigates_hopTry (w : World) (cfg : Config) (userId i : Nat) (navLinks : List Handle)
    (pick : Nat) : (hopTry w cfg userId i navLinks pick).Navigates 1 := by
  unfold hopTry
  have z : ∀ {α : Type} (a : α), (pure a : Run α).Navigates 0 :=
    fun a => Run.navigates_of_emits (Run.emits_pure a)
  refine Run.navigates_mono (a := 0 + (0 + 1)) ?_ (by omega)
  refine Run.navigates_bind (Run.navigates_of_emits (emits_member _ _)) (fun randomLink => ?_)
  refine Run.navigates_bind (Run.navigates_of_emits (emits_readLink w _ (fun _ => rfl)))
    (fun linkData => ?_)
  split
  · exact Run.navigates_mono (z _) (by omega)
  · refine Run.navigates_mono (a := 1 + (0 + (0 + (0 + (0 + (0 + 0)))))) ?_ (by omega)
    refine Run.navigates_bind (navigates_clickAndWait w _ _) (fun _ => ?_)
    refine Run.navigates_bind (Run.navigates_of_emits (emits_call w _ (fun _ => rfl)))
      (fun _ => ?_)
    refine Run.navigates_bind (Run.navigates_of_emits (emits_delay w _ _ rfl (fun _ => rfl)))
      (fun _ => ?_)
    refine Run.navigates_bind (Run.navigates_of_emits (emits_call w _ (fun _ => rfl)))
      (fun _ => ?_)
    refine Run.navigates_bind (Run.navigates_of_emits (emits_delay w _ _ rfl (fun _ => rfl)))
      (fun _ => ?_)
    refine Run.navigates_bind
      (navigates_scanSelectors w Action.rescanNav (fun _ => rfl) navSelectors) (fun _ => ?_)
    exact z _

/-- The hop loop performs at most one real navigation per iteration. -/
theorem navigates_hopLoop (w : World) (cfg : Config) (userId : Nat) (remaining : Nat) :
    ∀ (i : Nat) (navLinks : List Handle),
      (hopLoop w cfg userId remaining i navLinks).Navigates remaining := by
  have z : ∀ {α : Type} (a : α), (pure a : Run α).Navigates 0 :=
    fun a => Run.navigates_of_emits (Run.emits_pure a)
  induction remaining with
  | zero =>
    intro i navLinks
    unfold hopLoop
    exact z _
  | succ n ih =>
    intro i navLinks
    unfold hopLoop
    split
    · exact Run.navigates_mono (z _) (by omega)
    · refine Run.navigates_mono (a := 0 + (1 + n)) ?_ (by omega)
      refine Run.navigates_bind (Run.navigates_of_emits (emits_rand w rfl)) (fun r => ?_)
      refine Run.navigates_bind ?_ ?_
      · intro t
        exact navigates_hopTry w cfg userId i navLinks _ t
      · intro outcome
        split
        · exact Run.navigates_mono (z _) (by omega)
        · exact ih _ _
        · exact ih _ _

/-- One call of `randomNavigation` performs at most `maxNavigations` real
navigations when `maxNavigations` is at least 1, and at most one otherwise. -/
theorem navigates_randomNavigation (w : World) (cfg : Config) (userId : Nat) :
    (randomNavigation w cfg userId).Navigates (max 1 cfg.maxNavigations) := by
  unfold randomNavigation
  refine Run.navigates_mono (a := 0 + (0 + max 1 cfg.maxNavigations)) ?_ (by omega)
  refine Run.navigates_bind
    (navigates_scanSelectors w Action.scanNav (fun _ => rfl) navSelectors) (fun navLinks => ?_)
  split
  · exact Run.navigates_mono (Run.navigates_of_emits (Run.emits_pure _)) (by omega)
  · refine Run.navigates_bind (Run.navigates_of_emits (emits_rand w rfl)) (fun r => ?_)
    refine Run.navigates_mono (navigates_hopLoop w cfg userId _ _ _) ?_
    rcases Nat.eq_zero_or_pos cfg.maxNavigations with h0 | hpos
    · simp [h0, floorMul]
    · have := floorMul_lt r hpos
      omega

set_option maxRecDepth 100000 in
/-- C3 (the code departs from the claim): `puppeteer.launch` succeeds and
`browser.newPage` rejects; `simulateUser` rejects with that error after three
interactions, none of which is `browser.close`. -/
theorem simulateUser_newPage_failure_skips_close :
    simulateUser (failAt 2 closedMsg) CONFIG 1 [] =
      (Except.error closedMsg,
        [⟨Action.random, none⟩, ⟨Action.launch CONFIG.headless, none⟩,
          ⟨Action.newPage, some closedMsg⟩]) ∧
    ∀ e ∈ (simulateUser (failAt 2 closedMsg) CONFIG 1 []).2, e.act ≠ Action.close := by
  decide

set_option maxRecDepth 100000 in
/-- C7 (the code departs from the claim): with `maxNavigations = 0` and a page
whose first selector matches two ordinary links, `randomNavigation` draws the
hop count 1 and performs one real navigation, more than `maxNavigations`. -/
theorem randomNavigation_exceeds_zero_max :
    zeroHops.maxNavigations = 0 ∧
    floorMul half zeroHops.maxNavigations + 1 = 1 ∧
    (randomNavigation linkWorld zeroHops 1 []).1 = Except.ok () ∧
    navigations (randomNavigation linkWorld zeroHops 1 []).2 = 1 ∧
    (⟨Action.waitForNavigation 30000, none⟩ : Event) ∈
      (randomNavigation linkWorld zeroHops 1 []).2 ∧
    (⟨Action.clickLink 20, none⟩ : Event) ∈ (randomNavigation linkWorld zeroHops 1 []).2 := by
  decide

set_option maxRecDepth 100000 in
/-- Witness of C8: the picked anchor is a `mailto:` link. -/
theorem hopLoop_skips_invalid_link_witness :
    ([10, 20] : List Handle) ≠ [] ∧
    mailWorld.link (([] : Trace).length + 1) =
      Except.ok ⟨"mailto:a@b.com".toList, "Mail us".toList⟩ ∧
    ∃ randomLink,
      ([10, 20] : List Handle)[floorMul (mailWorld.random ([] : Trace).length)
        ([10, 20] : List Handle).length]? = some randomLink ∧
      hopTry mailWorld CONFIG 1 0 [10, 20]
          (floorMul (mailWorld.random ([] : Trace).length) ([10, 20] : List Handle).length)
          ([] ++ [⟨Action.random, none⟩]) =
        (Except.ok HopEnd.skipped,
          [] ++ [⟨Action.random, none⟩, ⟨Action.readLink randomLink, none⟩]) ∧
      hopLoop mailWorld CONFIG 1 (2 + 1) 0 [10, 20] [] =
        hopLoop mailWorld CONFIG 1 2 (0 + 1) [10, 20]
          ([] ++ [⟨Action.random, none⟩, ⟨Action.readLink randomLink, none⟩]) :=
  ⟨by decide, rfl,
    (hopLoop_skips_invalid_link mailWorld CONFIG 1 2 0 [10, 20] []
      ⟨"mailto:a@b.com".toList, "Mail us".toList⟩ (by decide) rfl
      (Or.inr (Or.inr (Or.inr (Or.inl
        (show "mailto:".toList <:+: "mailto:a@b.com".toList by decide)))))).2.2⟩

end LoadTester
